import Mathlib

/-!
# Verification of `create_segment_to_index_task`

A shallow embedding of `api/tasks/create_segment_to_index_task.py` from the
`dify` repository: an asynchronous single-segment indexing task.  The task
loads a segment by id, raises `NotFound` when absent, no-ops when the status
is not `waiting`, otherwise moves the segment to `indexing`, checks the
parent dataset/document eligibility, fans out to the configured index tiers
(`high_quality` then `economy`), and records a terminal `completed` or
`error` state; a `finally` block deletes the per-segment lock marker from
the redis lock store.

Database rows, the langchain `Document`, index sinks and the redis lock
store are modelled explicitly; time is a natural-number clock passed to the
run, incremented between the `utcnow()` call that stamps `indexing_at` and
the later one that stamps `completed_at`/`disabled_at`.  Index sinks are
modelled by the fault they may raise on each operation (`none` = the call
succeeds, `some msg` = the call raises an exception whose description is
`msg`), which is the only behaviour of theirs the task observes.
-/

/-- A `DocumentSegment` row as read and written by the task
(`models.dataset.DocumentSegment`; only the columns the task touches). -/
structure DocumentSegment where
  id : String
  content : String
  index_node_id : String
  index_node_hash : String
  document_id : String
  dataset_id : String
  status : String
  indexing_at : Option Nat := none
  completed_at : Option Nat := none
  enabled : Bool := true
  disabled_at : Option Nat := none
  error : Option String := none
deriving DecidableEq, Repr

/-- The parent document row (`segment.document`), with the three fields the
eligibility check at line 77 reads. -/
structure DatasetDocument where
  enabled : Bool
  archived : Bool
  indexing_status : String
deriving DecidableEq, Repr

/-- The parent dataset row (`segment.dataset`); the task only tests its
presence and passes it to `IndexBuilder.get_index`. -/
structure Dataset where
  id : String
deriving DecidableEq, Repr

/-- An index sink obtained from `IndexBuilder.get_index`, modelled by the
fault each of its operations would raise when called (`none` = success). -/
structure Index where
  addTextsFault : Option String := none
  createSegmentKeywordsFault : Option String := none
deriving DecidableEq, Repr

/-- The langchain `Document` built at lines 47-55: the segment's content
plus the metadata bag. -/
structure LCDocument where
  page_content : String
  doc_id : String
  doc_hash : String
  document_id : String
  dataset_id : String
deriving DecidableEq, Repr

/-- Builds the langchain `Document` from the segment, as lines 47-55 do. -/
def mkDocument (segment : DocumentSegment) : LCDocument :=
  { page_content := segment.content
    doc_id := segment.index_node_id
    doc_hash := segment.index_node_hash
    document_id := segment.document_id
    dataset_id := segment.dataset_id }

/-- One call made to an index sink, recording the operation and its
arguments: `add_texts` on the `high_quality` tier (line 87, with its
`duplicate_check` flag), `create_segment_keywords` on the `economy` tier
(line 91), or `add_texts` on the `economy` tier (line 93). -/
inductive IndexWrite where
  | hqAddTexts (doc : LCDocument) (duplicateCheck : Bool)
  | ecoCreateSegmentKeywords (nodeId : String) (keywords : List String)
  | ecoAddTexts (doc : LCDocument)
deriving DecidableEq, Repr

/-- The external world one invocation reads: the result of the segment
query (line 30), of the `segment.dataset` and `segment.document`
relationship loads (lines 57, 67), and of `IndexBuilder.get_index` for each
tier (lines 86, 89). -/
structure Env where
  segment : Option DocumentSegment
  dataset : Option Dataset
  dataset_document : Option DatasetDocument
  highQualityIndex : Option Index
  economyIndex : Option Index
deriving DecidableEq, Repr

/-- The fault that crosses the invocation boundary.  `notFound` is the
`werkzeug` `NotFound` raised at line 32; `other` stands for any other
exception class, so that absorption (rather than the type) is what limits
what escapes. -/
inductive RunFault where
  | notFound (msg : String)
  | other (msg : String)
deriving DecidableEq, Repr

/-- The lock-marker key `f'segment_{segment.id}_indexing'` (line 37). -/
def indexingCacheKey (segment_id : String) : String :=
  "segment_" ++ segment_id ++ "_indexing"

/-- `redis_client.delete key` on a lock store modelled as the list of
present keys. -/
def redisDelete (locks : List String) (key : String) : List String :=
  locks.filter (fun k => k ≠ key)

/-- What the `try` body (lines 39-109) leaves behind: the exception it
raised if any (`fault`), the persisted segment row, the index-sink calls
made in order, and the number of `db.session.commit()` calls. -/
structure BodyOut where
  fault : Option String
  segment : DocumentSegment
  writes : List IndexWrite
  commits : Nat
deriving DecidableEq, Repr

/-- Lines 86-87: `IndexBuilder.get_index(dataset, 'high_quality')`; when
the tier is configured, one `add_texts([document], duplicate_check=True)`
call is made.  Returns the fault that call raises (if any) and the call
made (empty when the tier is unconfigured). -/
def hqStep (env : Env) (document : LCDocument) : Option String × List IndexWrite :=
  match env.highQualityIndex with
  | none => (none, [])
  | some idx => (idx.addTextsFault, [IndexWrite.hqAddTexts document true])

/-- Lines 89-93: `IndexBuilder.get_index(dataset, 'economy')`; when the
tier is configured, either `create_segment_keywords(index_node_id,
keywords)` when a non-empty keyword list was supplied (Python truthiness:
`if keywords and len(keywords) > 0`), or `add_texts([document])`
otherwise.  Returns the fault that call raises (if any) and the call
made. -/
def ecoStep (env : Env) (index_node_id : String) (document : LCDocument)
    (keywords : Option (List String)) : Option String × List IndexWrite :=
  match env.economyIndex with
  | none => (none, [])
  | some idx =>
    match keywords with
    | some ks =>
      if 0 < ks.length then
        (idx.createSegmentKeywordsFault,
         [IndexWrite.ecoCreateSegmentKeywords index_node_id ks])
      else (idx.addTextsFault, [IndexWrite.ecoAddTexts document])
    | none => (idx.addTextsFault, [IndexWrite.ecoAddTexts document])

/-- The `try` body, lines 39-109: stamp `indexing` / `indexing_at` and
commit, build the document, early-return on a missing dataset, missing
document, or ineligible document, then write the configured tiers in order
and on success stamp `completed` / `completed_at` and commit. -/
def tryBody (env : Env) (segment : DocumentSegment)
    (keywords : Option (List String)) (t : Nat) : BodyOut :=
  let seg1 := { segment with status := "indexing", indexing_at := some t }
  let document := mkDocument segment
  match env.dataset with
  | none => { fault := none, segment := seg1, writes := [], commits := 1 }
  | some _dataset =>
    match env.dataset_document with
    | none => { fault := none, segment := seg1, writes := [], commits := 1 }
    | some dd =>
      if dd.enabled = false ∨ dd.archived = true ∨ dd.indexing_status ≠ "completed" then
        { fault := none, segment := seg1, writes := [], commits := 1 }
      else
        let hq := hqStep env document
        match hq.1 with
        | some msg => { fault := some msg, segment := seg1, writes := hq.2, commits := 1 }
        | none =>
          let eco := ecoStep env segment.index_node_id document keywords
          match eco.1 with
          | some msg =>
            { fault := some msg, segment := seg1, writes := hq.2 ++ eco.2, commits := 1 }
          | none =>
            { fault := none
              segment := { seg1 with status := "completed", completed_at := some (t + 1) }
              writes := hq.2 ++ eco.2
              commits := 2 }

/-- Everything observable about one invocation: the value or fault returned
to the transport, the persisted segment row afterwards (`none` when the id
did not resolve), the ordered index-sink calls, the commit count, and the
lock store afterwards. -/
structure RunOutcome where
  result : Except RunFault Unit
  segment : Option DocumentSegment
  writes : List IndexWrite
  commits : Nat
  locks : List String
deriving Repr

/-- `create_segment_to_index_task(segment_id, keywords)` over the
environment `env`, the lock store `locks`, and the clock `t`.  Lines 30-32:
raise `NotFound` when the segment does not resolve.  Lines 34-35: return
when the status is not `waiting` (before the `try`, so without touching the
lock store).  Lines 39-118: run the body; on an exception mark the segment
`error` / disabled and commit (lines 110-116); the `finally` (lines
117-118) deletes the lock marker. -/
def run (env : Env) (keywords : Option (List String)) (locks : List String)
    (t : Nat) : RunOutcome :=
  match env.segment with
  | none =>
    { result := Except.error (RunFault.notFound "Segment not found")
      segment := none, writes := [], commits := 0, locks := locks }
  | some segment =>
    if segment.status ≠ "waiting" then
      { result := Except.ok (), segment := some segment
        writes := [], commits := 0, locks := locks }
    else
      let key := indexingCacheKey segment.id
      let body := tryBody env segment keywords t
      match body.fault with
      | none =>
        { result := Except.ok (), segment := some body.segment
          writes := body.writes, commits := body.commits
          locks := redisDelete locks key }
      | some msg =>
        { result := Except.ok ()
          segment := some { body.segment with
            enabled := false
            disabled_at := some (t + 1)
            status := "error"
            error := some msg }
          writes := body.writes, commits := body.commits + 1
          locks := redisDelete locks key }

/-! ## Concrete fixtures used by witnesses and counterexamples -/

/-- A concrete segment in status `waiting`. -/
def segS1 : DocumentSegment :=
  { id := "s1", content := "hello", index_node_id := "n1", index_node_hash := "h1",
    document_id := "d1", dataset_id := "ds1", status := "waiting" }

/-- A parent document that passes the eligibility check of line 77. -/
def ddEligible : DatasetDocument :=
  { enabled := true, archived := false, indexing_status := "completed" }

/-- An environment where the segment resolves, is `waiting`, its parents
are eligible, and both index tiers are configured and succeed. -/
def envEligible : Env :=
  { segment := some segS1, dataset := some ⟨"ds1"⟩, dataset_document := some ddEligible,
    highQualityIndex := some {}, economyIndex := some {} }

/-! ## Claims -/

/-- Claim C2: `run` raises if and only if the segment identifier does not
resolve, and the fault it then raises is the `NotFound` of line 32; on
every other path the invocation returns normally (all processing faults
are absorbed by the `except` block). -/
theorem C2_only_notfound_crosses (env : Env) (keywords : Option (List String))
    (locks : List String) (t : Nat) :
    (run env keywords locks t).result =
      match env.segment with
      | none => Except.error (RunFault.notFound "Segment not found")
      | some _ => Except.ok () := by
  rcases henv : env.segment with _ | seg
  · simp [run, henv]
  · simp only [run, henv]
    split
    · rfl
    · split <;> rfl

/-- Claim C3: when the segment exists but its status is not `waiting`, the
run is a no-op success: the persisted segment is unchanged, nothing is
committed, and no index-tier call is made. -/
theorem C3_noop_when_not_waiting (env : Env) (seg : DocumentSegment)
    (keywords : Option (List String)) (locks : List String) (t : Nat)
    (henv : env.segment = some seg) (hst : seg.status ≠ "waiting") :
    (run env keywords locks t).segment = some seg ∧
    (run env keywords locks t).commits = 0 ∧
    (run env keywords locks t).writes = [] ∧
    (run env keywords locks t).result = Except.ok () := by
  simp [run, henv, hst]

/-- Witness for C3: a segment already in `indexing` is left exactly as it
is, with no commit and no index write. -/
theorem C3_noop_when_not_waiting_witness :
    (run { envEligible with segment := some { segS1 with status := "indexing" } }
        none ["k"] 0).segment = some { segS1 with status := "indexing" } ∧
    (run { envEligible with segment := some { segS1 with status := "indexing" } }
        none ["k"] 0).commits = 0 ∧
    (run { envEligible with segment := some { segS1 with status := "indexing" } }
        none ["k"] 0).writes = [] ∧
    (run { envEligible with segment := some { segS1 with status := "indexing" } }
        none ["k"] 0).result = Except.ok () :=
  C3_noop_when_not_waiting _ _ none ["k"] 0 rfl (by decide)

/-- Claim C1 is false as stated: the `finally` of lines 117-118 only
covers the `try` of line 39, which begins after the status guard of lines
34-35, so the status-not-waiting no-op returns without touching the lock
store.  Concretely: the segment exists with status `indexing` and its lock
marker is in the store before the invocation, and it is still there after
the invocation returns. -/
theorem C1_counterexample :
    ({ envEligible with segment := some { segS1 with status := "indexing" } } : Env).segment.isSome = true ∧
    indexingCacheKey "s1" ∈
      (run { envEligible with segment := some { segS1 with status := "indexing" } }
        none [indexingCacheKey "s1"] 0).locks := by
  decide

/-- Claim C1 (amended): for every invocation on an existing segment whose
status is `waiting` — i.e. every invocation that enters the processing
block, whatever its outcome (success, eligibility skip, or absorbed
fault) — the lock marker keyed by the segment identifier is absent from
the lock store after the invocation returns.  (On the status-not-waiting
no-op the lock store is untouched, so a pre-existing marker survives.) -/
theorem C1_lock_deleted_when_processing (env : Env) (seg : DocumentSegment)
    (keywords : Option (List String)) (locks : List String) (t : Nat)
    (henv : env.segment = some seg) (hst : seg.status = "waiting") :
    indexingCacheKey seg.id ∉ (run env keywords locks t).locks := by
  have hkey : ∀ l : List String,
      indexingCacheKey seg.id ∉ redisDelete l (indexingCacheKey seg.id) := by
    intro l
    simp [redisDelete]
  simp only [run, henv, hst]
  split
  · simp_all
  · split <;> exact hkey locks

/-- Witness for the amended C1: on a fully eligible run the marker set
before the invocation is gone afterwards. -/
theorem C1_lock_deleted_when_processing_witness :
    indexingCacheKey segS1.id ∉
      (run envEligible none [indexingCacheKey "s1"] 5).locks :=
  C1_lock_deleted_when_processing _ _ none _ 5 rfl rfl

/-- Helper: when the dataset is missing, the document is missing, or the
document fails the line-77 check, the body stops right after the
`indexing` update and its commit. -/
theorem tryBody_ineligible (env : Env) (seg : DocumentSegment)
    (keywords : Option (List String)) (t : Nat)
    (hinel : env.dataset = none ∨ env.dataset_document = none ∨
      ∃ dd, env.dataset_document = some dd ∧
        (dd.enabled = false ∨ dd.archived = true ∨ dd.indexing_status ≠ "completed")) :
    tryBody env seg keywords t =
      { fault := none, segment := { seg with status := "indexing", indexing_at := some t },
        writes := [], commits := 1 } := by
  rcases hinel with h | h | ⟨dd, hdd, hbad⟩
  · simp [tryBody, h]
  · rcases hds : env.dataset with _ | ds <;> simp [tryBody, hds, h]
  · rcases hds : env.dataset with _ | ds <;> simp [tryBody, hds, hdd, hbad]

/-- Claim C4: a `waiting` segment whose dataset or document is missing, or
whose document is disabled, archived, or not fully indexed, is moved to
`indexing` with `indexing_at` stamped, no index-tier call is made, the
invocation returns normally, and the segment stays in `indexing` (no
`completed` or `error` transition). -/
theorem C4_ineligible_leaves_indexing (env : Env) (seg : DocumentSegment)
    (keywords : Option (List String)) (locks : List String) (t : Nat)
    (henv : env.segment = some seg) (hst : seg.status = "waiting")
    (hinel : env.dataset = none ∨ env.dataset_document = none ∨
      ∃ dd, env.dataset_document = some dd ∧
        (dd.enabled = false ∨ dd.archived = true ∨ dd.indexing_status ≠ "completed")) :
    (run env keywords locks t).segment =
      some { seg with status := "indexing", indexing_at := some t } ∧
    (run env keywords locks t).writes = [] ∧
    (run env keywords locks t).result = Except.ok () := by
  have hb := tryBody_ineligible env seg keywords t hinel
  simp [run, henv, hst, hb]

/-- Witness for C4: a waiting segment with no dataset ends in `indexing`
with `indexing_at = 3`, no writes, normal return. -/
theorem C4_ineligible_leaves_indexing_witness :
    (run { envEligible with dataset := none } none ["k"] 3).segment =
      some { segS1 with status := "indexing", indexing_at := some 3 } ∧
    (run { envEligible with dataset := none } none ["k"] 3).writes = [] ∧
    (run { envEligible with dataset := none } none ["k"] 3).result = Except.ok () :=
  C4_ineligible_leaves_indexing _ _ none ["k"] 3 rfl rfl (Or.inl rfl)

/-- Helper: every exit of the body leaves the segment either stamped
`indexing` (early return or fault) or stamped `completed` (full success);
a fault always leaves it at the `indexing` stamp. -/
theorem tryBody_status (env : Env) (seg : DocumentSegment)
    (keywords : Option (List String)) (t : Nat) :
    ((tryBody env seg keywords t).fault = none ∧
      ((tryBody env seg keywords t).segment =
          { seg with status := "indexing", indexing_at := some t } ∨
       (tryBody env seg keywords t).segment =
          { seg with status := "completed", indexing_at := some t,
                     completed_at := some (t + 1) })) ∨
    (∃ msg, (tryBody env seg keywords t).fault = some msg ∧
      (tryBody env seg keywords t).segment =
          { seg with status := "indexing", indexing_at := some t }) := by
  unfold tryBody
  rcases env.dataset with _ | ds
  · exact Or.inl ⟨rfl, Or.inl rfl⟩
  · rcases env.dataset_document with _ | dd
    · exact Or.inl ⟨rfl, Or.inl rfl⟩
    · by_cases hc : dd.enabled = false ∨ dd.archived = true ∨ dd.indexing_status ≠ "completed"
      · simp only [hc, if_pos]
        exact Or.inl ⟨trivial, Or.inl trivial⟩
      · simp only [hc, if_neg, if_false]
        rcases (hqStep env (mkDocument seg)).1 with _ | m
        · rcases (ecoStep env seg.index_node_id (mkDocument seg) keywords).1 with _ | m2
          · exact Or.inl ⟨rfl, Or.inr rfl⟩
          · exact Or.inr ⟨m2, rfl, rfl⟩
        · exact Or.inr ⟨m, rfl, rfl⟩

/-- Helper: under passing eligibility checks, the body either succeeds with
the `completed` stamp or faults with the segment still at the `indexing`
stamp. -/
theorem tryBody_eligible_cases (env : Env) (seg : DocumentSegment)
    (keywords : Option (List String)) (t : Nat) (ds : Dataset) (dd : DatasetDocument)
    (hds : env.dataset = some ds) (hdd : env.dataset_document = some dd)
    (hen : dd.enabled = true) (har : dd.archived = false)
    (hin : dd.indexing_status = "completed") :
    ((tryBody env seg keywords t).fault = none ∧
      (tryBody env seg keywords t).segment =
        { seg with status := "completed", indexing_at := some t,
                   completed_at := some (t + 1) }) ∨
    (∃ msg, (tryBody env seg keywords t).fault = some msg ∧
      (tryBody env seg keywords t).segment =
        { seg with status := "indexing", indexing_at := some t }) := by
  unfold tryBody
  have hc : ¬ (dd.enabled = false ∨ dd.archived = true ∨ dd.indexing_status ≠ "completed") := by
    simp [hen, har, hin]
  simp only [hds, hdd]
  rw [if_neg hc]
  rcases (hqStep env (mkDocument seg)).1 with _ | m
  · rcases (ecoStep env seg.index_node_id (mkDocument seg) keywords).1 with _ | m2
    · exact Or.inl ⟨rfl, rfl⟩
    · exact Or.inr ⟨m2, rfl, rfl⟩
  · exact Or.inr ⟨m, rfl, rfl⟩

/-- Helper: a faulting body leaves the segment at the `indexing` stamp. -/
theorem tryBody_fault_segment (env : Env) (seg : DocumentSegment)
    (keywords : Option (List String)) (t : Nat) (msg : String)
    (hf : (tryBody env seg keywords t).fault = some msg) :
    (tryBody env seg keywords t).segment =
      { seg with status := "indexing", indexing_at := some t } := by
  rcases tryBody_status env seg keywords t with ⟨h0, _⟩ | ⟨m, _, hseg⟩
  · rw [h0] at hf
    exact Option.noConfusion hf
  · exact hseg

/-- Helper: on the processing path with no body fault, the persisted
segment is the body's segment. -/
theorem run_segment_of_fault_none (env : Env) (seg : DocumentSegment)
    (keywords : Option (List String)) (locks : List String) (t : Nat)
    (henv : env.segment = some seg) (hst : seg.status = "waiting")
    (hf : (tryBody env seg keywords t).fault = none) :
    (run env keywords locks t).segment = some ((tryBody env seg keywords t).segment) := by
  simp [run, henv, hst, hf]

/-- Helper: on the processing path with a body fault `msg`, the persisted
segment is the body's segment with the error fields overridden by the
`except` block of lines 110-116. -/
theorem run_segment_of_fault_some (env : Env) (seg : DocumentSegment)
    (keywords : Option (List String)) (locks : List String) (t : Nat) (msg : String)
    (henv : env.segment = some seg) (hst : seg.status = "waiting")
    (hf : (tryBody env seg keywords t).fault = some msg) :
    (run env keywords locks t).segment =
      some { (tryBody env seg keywords t).segment with
        enabled := false, disabled_at := some (t + 1),
        status := "error", error := some msg } := by
  simp [run, henv, hst, hf]

/-- Claim C5: a `waiting` segment that passes every eligibility check ends
the invocation in exactly one of `completed` (with `completed_at` stamped)
or `error` — never both, never neither. -/
theorem C5_terminal_exactly_one (env : Env) (seg : DocumentSegment)
    (ds : Dataset) (dd : DatasetDocument)
    (keywords : Option (List String)) (locks : List String) (t : Nat)
    (henv : env.segment = some seg) (hst : seg.status = "waiting")
    (hds : env.dataset = some ds) (hdd : env.dataset_document = some dd)
    (hen : dd.enabled = true) (har : dd.archived = false)
    (hin : dd.indexing_status = "completed") :
    ∃ s, (run env keywords locks t).segment = some s ∧
      Xor' (s.status = "completed" ∧ s.completed_at = some (t + 1)) (s.status = "error") := by
  rcases tryBody_eligible_cases env seg keywords t ds dd hds hdd hen har hin with
    ⟨hf, hseg⟩ | ⟨msg, hf, hseg⟩
  · refine ⟨_, run_segment_of_fault_none env seg keywords locks t henv hst hf, ?_⟩
    rw [hseg]
    simp [Xor']
  · refine ⟨_, run_segment_of_fault_some env seg keywords locks t msg henv hst hf, ?_⟩
    simp [Xor']

/-- Witness for C5: the fully eligible concrete run ends in `completed`
with `completed_at = 1`. -/
theorem C5_terminal_exactly_one_witness :
    ∃ s, (run envEligible none [] 0).segment = some s ∧
      Xor' (s.status = "completed" ∧ s.completed_at = some 1) (s.status = "error") :=
  C5_terminal_exactly_one envEligible segS1 ⟨"ds1"⟩ ddEligible none [] 0
    rfl rfl rfl rfl rfl rfl rfl

/-- An eligible environment whose `high_quality` tier faults on
`add_texts`. -/
def envHqFault : Env :=
  { envEligible with highQualityIndex := some { addTextsFault := some "boom" } }

/-- An eligible environment whose `economy` tier faults on `add_texts`. -/
def envEcoFault : Env :=
  { envEligible with economyIndex := some { addTextsFault := some "kaput" } }

/-- Claim C7: a fault raised in the body after the segment entered
processing is absorbed — the invocation returns normally — and the segment
is committed with status `error`, `enabled = false`, `disabled_at` set to
the current time, and `error` set to the fault's description. -/
theorem C7_fault_recorded_not_reraised (env : Env) (seg : DocumentSegment)
    (keywords : Option (List String)) (locks : List String) (t : Nat) (msg : String)
    (henv : env.segment = some seg) (hst : seg.status = "waiting")
    (hf : (tryBody env seg keywords t).fault = some msg) :
    (run env keywords locks t).result = Except.ok () ∧
    (∃ s, (run env keywords locks t).segment = some s ∧
      s.status = "error" ∧ s.enabled = false ∧ s.disabled_at = some (t + 1) ∧
      s.error = some msg) ∧
    (run env keywords locks t).commits = (tryBody env seg keywords t).commits + 1 := by
  refine ⟨?_,
    ⟨_, run_segment_of_fault_some env seg keywords locks t msg henv hst hf,
      rfl, rfl, rfl, rfl⟩, ?_⟩
  · simp [run, henv, hst, hf]
  · simp [run, henv, hst, hf]

/-- Witness for C7: a faulting `high_quality` write ends in a committed
`error` state with the fault description, and a normal return. -/
theorem C7_fault_recorded_not_reraised_witness :
    (run envHqFault none ["k"] 0).result = Except.ok () ∧
    (∃ s, (run envHqFault none ["k"] 0).segment = some s ∧
      s.status = "error" ∧ s.enabled = false ∧ s.disabled_at = some 1 ∧
      s.error = some "boom") ∧
    (run envHqFault none ["k"] 0).commits = (tryBody envHqFault segS1 none 0).commits + 1 :=
  C7_fault_recorded_not_reraised envHqFault segS1 none ["k"] 0 "boom" rfl rfl rfl

/-- Claim C10: on the fault-recording path only `status`, `enabled`,
`disabled_at` and `error` change; the identity, content, node identifier,
content hash, owning document and dataset identifiers, and `completed_at`
keep their pre-run values, and `indexing_at` keeps the stamp set earlier
in the same run. -/
theorem C10_fault_frame (env : Env) (seg : DocumentSegment)
    (keywords : Option (List String)) (locks : List String) (t : Nat) (msg : String)
    (henv : env.segment = some seg) (hst : seg.status = "waiting")
    (hf : (tryBody env seg keywords t).fault = some msg) :
    ∃ s, (run env keywords locks t).segment = some s ∧
      s.id = seg.id ∧ s.content = seg.content ∧
      s.index_node_id = seg.index_node_id ∧
      s.index_node_hash = seg.index_node_hash ∧
      s.document_id = seg.document_id ∧ s.dataset_id = seg.dataset_id ∧
      s.indexing_at = some t ∧ s.completed_at = seg.completed_at := by
  have hb := tryBody_fault_segment env seg keywords t msg hf
  refine ⟨_, run_segment_of_fault_some env seg keywords locks t msg henv hst hf, ?_⟩
  rw [hb]
  simp

/-- Witness for C10: a faulting `economy` write leaves every frame field of
the concrete segment intact, with `indexing_at` still carrying the stamp. -/
theorem C10_fault_frame_witness :
    ∃ s, (run envEcoFault none ["k"] 7).segment = some s ∧
      s.id = segS1.id ∧ s.content = segS1.content ∧
      s.index_node_id = segS1.index_node_id ∧
      s.index_node_hash = segS1.index_node_hash ∧
      s.document_id = segS1.document_id ∧ s.dataset_id = segS1.dataset_id ∧
      s.indexing_at = some 7 ∧ s.completed_at = segS1.completed_at :=
  C10_fault_frame envEcoFault segS1 none ["k"] 7 "kaput" rfl rfl rfl

/-- Helper: on the processing path the invocation's index-sink calls are
exactly the body's. -/
theorem run_writes (env : Env) (seg : DocumentSegment)
    (keywords : Option (List String)) (locks : List String) (t : Nat)
    (henv : env.segment = some seg) (hst : seg.status = "waiting") :
    (run env keywords locks t).writes = (tryBody env seg keywords t).writes := by
  simp only [run, henv]
  rw [if_neg (by simp [hst])]
  split <;> rfl

/-- Helper: under passing eligibility checks, the calls made are the
`high_quality` attempt followed — only when that attempt did not fault —
by the `economy` attempt. -/
theorem run_writes_eligible (env : Env) (seg : DocumentSegment)
    (ds : Dataset) (dd : DatasetDocument)
    (keywords : Option (List String)) (locks : List String) (t : Nat)
    (henv : env.segment = some seg) (hst : seg.status = "waiting")
    (hds : env.dataset = some ds) (hdd : env.dataset_document = some dd)
    (hen : dd.enabled = true) (har : dd.archived = false)
    (hin : dd.indexing_status = "completed") :
    (run env keywords locks t).writes =
      (hqStep env (mkDocument seg)).2 ++
        (if (hqStep env (mkDocument seg)).1.isSome then []
         else (ecoStep env seg.index_node_id (mkDocument seg) keywords).2) := by
  have hc : ¬ (dd.enabled = false ∨ dd.archived = true ∨ dd.indexing_status ≠ "completed") := by
    simp [hen, har, hin]
  rw [run_writes env seg keywords locks t henv hst]
  unfold tryBody
  simp only [hds, hdd]
  rw [if_neg hc]
  rcases (hqStep env (mkDocument seg)).1 with _ | m
  · rcases (ecoStep env seg.index_node_id (mkDocument seg) keywords).1 with _ | m2 <;> simp
  · simp

/-- Helper: the `high_quality` attempt list is empty (tier unconfigured)
or the single `add_texts` call with `duplicate_check = True`. -/
theorem hqStep_writes (env : Env) (doc : LCDocument) :
    (hqStep env doc).2 = [] ∨ (hqStep env doc).2 = [IndexWrite.hqAddTexts doc true] := by
  unfold hqStep
  rcases env.highQualityIndex with _ | idx
  · exact Or.inl rfl
  · exact Or.inr rfl

/-- Claim C8: for an eligible segment the tiers run sequentially, the
`high_quality` tier first as a single `add_texts` with `duplicate_check =
True`, then the `economy` tier; an unconfigured tier contributes no call,
and when the `high_quality` write faults the `economy` tier is never
attempted.  (The right-hand side spells this out through `hqStep` and
`ecoStep`, whose values are the one call of lines 87 and 91/93
respectively, or none when `IndexBuilder.get_index` returns nothing.) -/
theorem C8_fanout_order (env : Env) (seg : DocumentSegment)
    (ds : Dataset) (dd : DatasetDocument)
    (keywords : Option (List String)) (locks : List String) (t : Nat)
    (henv : env.segment = some seg) (hst : seg.status = "waiting")
    (hds : env.dataset = some ds) (hdd : env.dataset_document = some dd)
    (hen : dd.enabled = true) (har : dd.archived = false)
    (hin : dd.indexing_status = "completed") :
    (run env keywords locks t).writes =
      (hqStep env (mkDocument seg)).2 ++
        (if (hqStep env (mkDocument seg)).1.isSome then []
         else (ecoStep env seg.index_node_id (mkDocument seg) keywords).2) :=
  run_writes_eligible env seg ds dd keywords locks t henv hst hds hdd hen har hin

/-- Witness for C8: the concrete eligible run with both tiers configured
makes the `high_quality` call first and the `economy` call second. -/
theorem C8_fanout_order_witness :
    (run envEligible (some ["alpha", "beta"]) [] 0).writes =
      (hqStep envEligible (mkDocument segS1)).2 ++
        (if (hqStep envEligible (mkDocument segS1)).1.isSome then []
         else (ecoStep envEligible segS1.index_node_id (mkDocument segS1)
                (some ["alpha", "beta"])).2) :=
  C8_fanout_order envEligible segS1 ⟨"ds1"⟩ ddEligible (some ["alpha", "beta"]) [] 0
    rfl rfl rfl rfl rfl rfl rfl

/-- Claim C6: for an eligible segment with the `economy` tier configured
and the `high_quality` tier not faulting, a supplied non-empty keyword
list goes to the tier verbatim via `create_segment_keywords` keyed by the
segment's `index_node_id` and the automatic `add_texts` extraction path is
not invoked; an absent or empty keyword list invokes `add_texts` on the
built document instead, and `create_segment_keywords` is not invoked. -/
theorem C6_keyword_tier (env : Env) (seg : DocumentSegment)
    (ds : Dataset) (dd : DatasetDocument) (eco : Index)
    (keywords : Option (List String)) (locks : List String) (t : Nat)
    (henv : env.segment = some seg) (hst : seg.status = "waiting")
    (hds : env.dataset = some ds) (hdd : env.dataset_document = some dd)
    (hen : dd.enabled = true) (har : dd.archived = false)
    (hin : dd.indexing_status = "completed")
    (heco : env.economyIndex = some eco)
    (hhq : (hqStep env (mkDocument seg)).1 = none) :
    (∀ ks, keywords = some ks → ks ≠ [] →
      IndexWrite.ecoCreateSegmentKeywords seg.index_node_id ks ∈
        (run env keywords locks t).writes ∧
      ∀ d, IndexWrite.ecoAddTexts d ∉ (run env keywords locks t).writes) ∧
    ((keywords = none ∨ keywords = some []) →
      IndexWrite.ecoAddTexts (mkDocument seg) ∈ (run env keywords locks t).writes ∧
      ∀ n ks, IndexWrite.ecoCreateSegmentKeywords n ks ∉
        (run env keywords locks t).writes) := by
  have hw := run_writes_eligible env seg ds dd keywords locks t henv hst hds hdd hen har hin
  rw [hhq] at hw
  simp only [Option.isSome_none, Bool.false_eq_true, if_false] at hw
  have hhqw := hqStep_writes env (mkDocument seg)
  constructor
  · rintro ks rfl hne
    have hlen : 0 < ks.length := List.length_pos.mpr hne
    have hecow : (ecoStep env seg.index_node_id (mkDocument seg) (some ks)).2 =
        [IndexWrite.ecoCreateSegmentKeywords seg.index_node_id ks] := by
      simp [ecoStep, heco, hlen]
    rw [hw, hecow]
    refine ⟨by simp, ?_⟩
    intro d
    rcases hhqw with h | h <;> simp [h]
  · intro hkw
    have hecow : (ecoStep env seg.index_node_id (mkDocument seg) keywords).2 =
        [IndexWrite.ecoAddTexts (mkDocument seg)] := by
      rcases hkw with rfl | rfl <;> simp [ecoStep, heco]
    rw [hw, hecow]
    refine ⟨by simp, ?_⟩
    intro n ks
    rcases hhqw with h | h <;> simp [h]

/-- Witness for C6: the concrete eligible run with keywords
`["alpha", "beta"]` supplied. -/
theorem C6_keyword_tier_witness :
    (∀ ks, (some ["alpha", "beta"] : Option (List String)) = some ks → ks ≠ [] →
      IndexWrite.ecoCreateSegmentKeywords segS1.index_node_id ks ∈
        (run envEligible (some ["alpha", "beta"]) [] 0).writes ∧
      ∀ d, IndexWrite.ecoAddTexts d ∉ (run envEligible (some ["alpha", "beta"]) [] 0).writes) ∧
    (((some ["alpha", "beta"] : Option (List String)) = none ∨
        (some ["alpha", "beta"] : Option (List String)) = some []) →
      IndexWrite.ecoAddTexts (mkDocument segS1) ∈
        (run envEligible (some ["alpha", "beta"]) [] 0).writes ∧
      ∀ n ks, IndexWrite.ecoCreateSegmentKeywords n ks ∉
        (run envEligible (some ["alpha", "beta"]) [] 0).writes) :=
  C6_keyword_tier envEligible segS1 ⟨"ds1"⟩ ddEligible {} (some ["alpha", "beta"]) [] 0
    rfl rfl rfl rfl rfl rfl rfl rfl rfl

/-- Helper: once a `waiting` segment is processed, the persisted status is
no longer `waiting` (it is `indexing`, `completed`, or `error`). -/
theorem run_processed_not_waiting (env : Env) (seg : DocumentSegment)
    (keywords : Option (List String)) (locks : List String) (t : Nat)
    (henv : env.segment = some seg) (hst : seg.status = "waiting") :
    ∃ s, (run env keywords locks t).segment = some s ∧ s.status ≠ "waiting" := by
  rcases tryBody_status env seg keywords t with ⟨hf, hseg | hseg⟩ | ⟨msg, hf, hseg⟩
  · refine ⟨_, run_segment_of_fault_none env seg keywords locks t henv hst hf, ?_⟩
    rw [hseg]
    simp
  · refine ⟨_, run_segment_of_fault_none env seg keywords locks t henv hst hf, ?_⟩
    rw [hseg]
    simp
  · refine ⟨_, run_segment_of_fault_some env seg keywords locks t msg henv hst hf, ?_⟩
    simp

/-- Claim C9: running the task a second time on the segment state the
first run persisted changes nothing: the second invocation keeps the
segment state the first produced, makes no index-sink call, and commits
nothing (once the first run moved the segment past `waiting`, the second
is absorbed by the status guard; when the first was itself a no-op or a
`NotFound`, so is the second). -/
theorem C9_idempotent (env : Env) (keywords keywords2 : Option (List String))
    (locks : List String) (t t2 : Nat) :
    (run { env with segment := (run env keywords locks t).segment }
        keywords2 (run env keywords locks t).locks t2).segment =
      (run env keywords locks t).segment ∧
    (run { env with segment := (run env keywords locks t).segment }
        keywords2 (run env keywords locks t).locks t2).writes = [] ∧
    (run { env with segment := (run env keywords locks t).segment }
        keywords2 (run env keywords locks t).locks t2).commits = 0 := by
  rcases henv : env.segment with _ | seg
  · simp [run, henv]
  · by_cases hst : seg.status = "waiting"
    · obtain ⟨s, hs, hns⟩ := run_processed_not_waiting env seg keywords locks t henv hst
      rw [hs]
      simp [run, hns]
    · simp [run, henv, hst]
